import Mathlib

/-!
Verification development for the anime recommendation webhook (src/app.py).

The Python program is shallowly embedded: JSON values exchanged with the
language model and the metadata service become the inductive type `Json`;
Python dictionaries become association lists with unique keys (`PyDict`);
Python exceptions become the `Except PyErr` monad; the two outbound
collaborators (the language model and the AniList metadata service) become
explicit behaviour parameters, so that every code path of the handler is a
total Lean function of its inputs and of the collaborators that the real
program consults at run time.
-/

namespace AnimeBot

/-- JSON values, as produced by json.loads on the model reply and by the
metadata service body.  Numbers are modelled as integers (all numeric fields
of the program - request_count, min_episodes, averageScore, episodes - are
integers in the AniList schema and in the prompt contract). -/
inductive Json where
  | null : Json
  | bool : Bool → Json
  | num : Int → Json
  | str : String → Json
  | arr : List Json → Json
  | obj : List (String × Json) → Json

/-- A Python dict with string keys, as an association list (unique keys). -/
abbrev PyDict := List (String × Json)

/-- Python exceptions that the embedded code can raise. -/
inductive PyErr where
  | keyError
  | typeError
  | valueError
  | attributeError
  | nameError
  | modelError
  | requestError
deriving DecidableEq

/-- Dictionary lookup (keys are unique, first binding wins). -/
def dlookup : PyDict → String → Option Json
  | [], _ => none
  | (k1, v1) :: rest, k => if k1 = k then some v1 else dlookup rest k

/-- Python dict.get with a default. -/
def dget (d : PyDict) (k : String) (deflt : Json) : Json :=
  (dlookup d k).getD deflt

/-- Python dict assignment d[k] = v: replaces the value in place when the
key exists, appends the binding otherwise. -/
def dset : PyDict → String → Json → PyDict
  | [], k, v => [(k, v)]
  | (k1, v1) :: rest, k, v =>
    if k1 = k then (k1, v) :: rest else (k1, v1) :: dset rest k v

/-- Python truthiness on JSON values: None, False, 0, empty string, empty
list and empty dict are falsy, everything else truthy. -/
def pyTruthy : Json → Bool
  | .null => false
  | .bool b => b
  | .num n => n != 0
  | .str s => s != ""
  | .arr xs => !xs.isEmpty
  | .obj kvs => !kvs.isEmpty

/-- Python str.strip (the code only strips ASCII whitespace in practice):
drop whitespace from both ends. -/
def pyStrip (s : String) : String :=
  String.mk (((s.data.dropWhile Char.isWhitespace).reverse.dropWhile
    Char.isWhitespace).reverse)

/-- Python str.lower for the ASCII strings of the allow-list. -/
def pyLower (s : String) : String := String.mk (s.data.map Char.toLower)

/-- Python str.capitalize: first character uppercased, all the remaining
characters lowercased. -/
def pyCapitalize (s : String) : String :=
  match s.data with
  | [] => ""
  | c :: cs => String.mk (c.toUpper :: cs.map Char.toLower)

/-- Value of a decimal digit list. -/
def digitsVal (cs : List Char) : Nat :=
  cs.foldl (fun a c => a * 10 + (c.toNat - 48)) 0

/-- Python int(s) on a string: optional surrounding whitespace, optional
sign, then at least one decimal digit; anything else raises ValueError. -/
def pyIntOfString (s : String) : Option Int :=
  let t := (pyStrip s).data
  let signed : Int × List Char :=
    match t with
    | '-' :: rest => (-1, rest)
    | '+' :: rest => (1, rest)
    | _ => (1, t)
  if signed.2 ≠ [] ∧ signed.2.all Char.isDigit then
    some (signed.1 * (digitsVal signed.2 : Int))
  else none

/-- Python int(x) on a JSON value: ints pass through, bools become 0/1,
numeric strings are parsed (else ValueError), anything else TypeError. -/
def pyInt : Json → Except PyErr Int
  | .num n => .ok n
  | .bool b => .ok (if b then 1 else 0)
  | .str s =>
    match pyIntOfString s with
    | some n => .ok n
    | none => .error .valueError
  | _ => .error .typeError

mutual
/-- Python repr of a JSON value (container elements render with repr). -/
def pyRepr : Json → String
  | .null => "None"
  | .bool true => "True"
  | .bool false => "False"
  | .num n => toString n
  | .str s => "\x27" ++ s ++ "\x27"
  | .arr xs => "[" ++ ", ".intercalate (pyReprList xs) ++ "]"
  | .obj kvs => "\x7b" ++ ", ".intercalate (pyReprPairs kvs) ++ "\x7d"

/-- repr of each element of a JSON array. -/
def pyReprList : List Json → List String
  | [] => []
  | j :: js => pyRepr j :: pyReprList js

/-- repr of each key-value pair of a JSON object. -/
def pyReprPairs : List (String × Json) → List String
  | [] => []
  | (k, v) :: rest => ("\x27" ++ k ++ "\x27: " ++ pyRepr v) :: pyReprPairs rest
end

/-- Python str(x), as used by f-string interpolation: strings render as
themselves, every other value renders as its repr. -/
def pyStr : Json → String
  | .str s => s
  | j => pyRepr j

/-- Python sep.join over a materialised list of strings. -/
def py_join (sep : String) : List String → String
  | [] => ""
  | [x] => x
  | x :: xs => x ++ sep ++ py_join sep xs

/-- The fixed genre allow-list of validate_genres (src/app.py lines 37-39). -/
def valid_genres : List String :=
  ["Action", "Adventure", "Comedy", "Drama", "Fantasy",
   "Horror", "Mystery", "Romance", "Sci-Fi", "Slice of Life",
   "Sports", "Supernatural", "Thriller"]

/-- Python membership g in valid_genres, where g is a JSON value: only a
string equal to one of the allow-list entries matches. -/
def isValidGenre (g : Json) : Bool :=
  match g with
  | .str s => valid_genres.contains s
  | _ => false

/-- validate_genres (src/app.py lines 35-43).  The list comprehension keeps
the elements of the iterable parsed_genres that occur in the allow-list.
Iterating a string yields its characters and iterating a dict yields its
keys (none of which can raise, so those paths return the filtered chars or
keys, in practice empty); iterating a non-iterable raises TypeError, which
the internal try/except converts to the empty list. -/
def validate_genres : Json → List Json
  | .arr xs => xs.filter isValidGenre
  | .str s => (s.data.map (fun c => Json.str (String.mk [c]))).filter isValidGenre
  | .obj kvs => (kvs.map (fun p => Json.str p.1)).filter isValidGenre
  | _ => []

/-! ## Parameter extractor: parse_query (src/app.py lines 82-110)

The model call and json.loads are summarised by the parameter
`reply : Except Unit Json`: an error value stands for a failed model call or
an unparseable reply, an ok value is the parsed JSON of the reply text. -/

/-- The genre list comprehension of parse_query line 102: for each element,
Python first evaluates g.strip() (AttributeError when g is not a string),
keeps the element when the stripped string is truthy (non-empty), and yields
g.strip().capitalize(). -/
def genre_format_list : List Json → Except PyErr (List String)
  | [] => .ok []
  | g :: gs =>
    match g with
    | .str s =>
      match genre_format_list gs with
      | .error e => .error e
      | .ok rest =>
        .ok (if pyStrip s ≠ "" then pyCapitalize (pyStrip s) :: rest else rest)
    | _ => .error .attributeError

/-- The genre formatting block of parse_query lines 98-102: when the key
genres is present, a scalar string becomes a one-element list of its
stripped, capitalized form; a list is mapped elementwise by the
comprehension; any other value falls through both isinstance checks and is
left unchanged. -/
def genre_format (kvs : PyDict) : Except PyErr PyDict :=
  match dlookup kvs "genres" with
  | none => .ok kvs
  | some (Json.str s) =>
    .ok (dset kvs "genres" (Json.arr [Json.str (pyCapitalize (pyStrip s))]))
  | some (Json.arr xs) =>
    match genre_format_list xs with
    | .error e => .error e
    | .ok gs => .ok (dset kvs "genres" (Json.arr (gs.map Json.str)))
  | some _ => .ok kvs

/-- The body of the try block of parse_query (lines 83-107).  When the parsed
reply is not a JSON object, the dict operations applied to it (the .get call,
the subscript assignment, or the membership test on a number) raise, which is
collapsed to a single TypeError since the except clause catches everything. -/
def parse_query_try (reply : Except Unit Json) : Except PyErr PyDict :=
  match reply with
  | .error _ => .error .modelError
  | .ok (Json.obj kvs) =>
    match genre_format kvs with
    | .error e => .error e
    | .ok kvs2 =>
      match pyInt (dget kvs2 "request_count" (Json.num 3)) with
      | .error e => .error e
      | .ok rc => .ok (dset kvs2 "request_count" (Json.num (min rc 10)))
  | .ok _ => .error .typeError

/-- parse_query (src/app.py lines 82-110): any exception in the try block is
caught and replaced by the default parameter dict. -/
def parse_query (reply : Except Unit Json) : PyDict :=
  match parse_query_try reply with
  | .ok d => d
  | .error _ => [("genres", Json.arr []), ("request_count", Json.num 3)]

/-! ## Query builder: build_anilist_query (src/app.py lines 45-80) -/

/-- The GraphQL query f-string of build_anilist_query (lines 48-68), with the
computed req_count interpolated at the perPage position. -/
def anilist_query_text (req_count : Json) : String :=
  "\n    query ($search: String, $genre_in: [String], $minEpisodes: Int, $sort: MediaSort) \x7b\n      Page(perPage: "
    ++ pyStr req_count
    ++ ") \x7b\n        media(\n          type: ANIME\n          search: $search\n          genre_in: $genre_in\n          episodes_greater: $minEpisodes\n          sort: [$sort]\n        ) \x7b\n          title \x7b english romaji \x7d\n          description\n          episodes\n          genres\n          averageScore\n          popularity\n          siteUrl\n        \x7d\n      \x7d\n    \x7d\n    "

/-- min(x, 10) on the JSON value bound to request_count: an int is clamped
from above, a bool compares as 0/1 and is returned unchanged (both are below
10), any other value raises TypeError when compared with an int. -/
def pyMinTen : Json → Except PyErr Json
  | .num n => .ok (.num (min n 10))
  | .bool b => .ok (.bool b)
  | _ => .error .typeError

/-- The request payload returned by build_anilist_query: the GraphQL query
string and the variables dict (field vars, since variables is a reserved
word in Lean). -/
structure AnilistRequest where
  query : String
  vars : PyDict

/-- build_anilist_query (src/app.py lines 45-80).  req_count is computed
first (line 46) and can raise TypeError; the variables dict evaluates search,
genre_in, minEpisodes and sort in order, where only the int conversion of
min_episodes (line 73) can raise; there is no try/except, so any such
exception escapes to the caller. -/
def build_anilist_query (params : PyDict) : Except PyErr AnilistRequest :=
  match pyMinTen (dget params "request_count" (Json.num 3)) with
  | .error e => .error e
  | .ok req_count =>
    match pyInt (dget params "min_episodes" (Json.num 0)) with
    | .error e => .error e
    | .ok minEp =>
      let s := dget params "similar_to" (Json.str "")
      let search := if pyTruthy s then s else Json.null
      let genre_in := validate_genres (dget params "genres" (Json.arr []))
      let sort :=
        if ¬ pyTruthy (dget params "similar_to" Json.null) then "TRENDING_DESC"
        else if pyTruthy (dget params "binge" Json.null) then "POPULARITY_DESC"
        else "SCORE_DESC"
      .ok ⟨anilist_query_text req_count,
           [("search", search), ("genre_in", Json.arr genre_in),
            ("minEpisodes", Json.num minEp), ("sort", Json.str sort)]⟩

/-! ## Response synthesizer: generate_nikko_response (src/app.py lines 112-136)

The Gemini call is the parameter `llm : String → Except Unit String`, an
error value standing for a failed call.  random.choice over the two fixed
no-results strings is the boolean parameter `choice`. -/

/-- NIKKO_PROMPT (src/app.py lines 23-33) after .format, as a function of
the three placeholder values. -/
def NIKKO_PROMPT_filled (query : String) (request_count : String)
    (recommendations : String) : String :=
  "You\x27re Nikko, the sassiest anime AI. Respond to: \"" ++ query
    ++ "\"\n\n**Rules**: \n1. Acknowledge request count with attitude \n2. Max 2 emojis (🔥🎌💢🤌) \n3. Roast generic requests \n4. Keep under 4 lines\n\nCurrent Query: \""
    ++ query ++ "\"\nRequested Count: " ++ request_count
    ++ "\nRecommendations: " ++ recommendations

/-- One line of the enumerated rendering (line 121), for the record at
0-based position i: subscripting raises KeyError when the record lacks the
title or score key. -/
def rec_line (i : Nat) (r : PyDict) : Except PyErr String :=
  match dlookup r "title" with
  | none => .error .keyError
  | some t =>
    match dlookup r "score" with
    | none => .error .keyError
    | some sc =>
      .ok ((toString (i + 1) ++ ". ") ++ pyStr t ++ (" (" ++ pyStr sc ++ "/100)"))

/-- The enumerated lines for the records starting at position i. -/
def rec_lines : Nat → List PyDict → Except PyErr (List String)
  | _, [] => .ok []
  | i, r :: rs =>
    match rec_line i r with
    | .error e => .error e
    | .ok l =>
      match rec_lines (i + 1) rs with
      | .error e => .error e
      | .ok ls => .ok (l :: ls)

/-- recs_formatted (lines 120-123): the enumerated lines joined by newlines. -/
def format_recs (recs : List PyDict) : Except PyErr String :=
  match rec_lines 0 recs with
  | .error e => .error e
  | .ok ls => .ok (py_join "\n" ls)

/-- generate_nikko_response (src/app.py lines 112-136).  On an empty list one
of the two fixed no-results strings is returned.  Otherwise the enumerated
rendering is built; if that raises (KeyError on a record without title or
score), the name recs_formatted is still unbound when the except clause
mentions it, so the except clause itself raises NameError, which escapes.
When the rendering succeeds and the model call fails, the except clause
returns the deterministic fallback label plus the rendering; when the model
call succeeds its text is stripped and returned. -/
def generate_nikko_response (query : String) (recommendations : List PyDict)
    (req_count : Json) (llm : String → Except Unit String) (choice : Bool) :
    Except PyErr String :=
  if recommendations.isEmpty then
    .ok (if choice then "Dry spell? 💢 Nothing matches your criteria"
         else "Zero results? Must be an anime void 🕳️")
  else
    match format_recs recommendations with
    | .error _ => .error .nameError
    | .ok recs_formatted =>
      match llm (NIKKO_PROMPT_filled query (pyStr req_count) recs_formatted) with
      | .ok text => .ok (pyStrip text)
      | .error _ => .ok ("🔥 Top Picks:\n" ++ recs_formatted)

/-! ## Result normalizer: the loop of webhook, src/app.py lines 180-188 -/

/-- Python subscripting j[k]: KeyError when the key is missing from a dict,
TypeError when j is not a dict (string indices must be integers, etc.). -/
def jindex (j : Json) (k : String) : Except PyErr Json :=
  match j with
  | .obj kvs =>
    match dlookup kvs k with
    | some v => .ok v
    | none => .error .keyError
  | _ => .error .typeError

/-- Line 182: media[title][english] or media[title][romaji] or "Untitled",
with Python or short-circuiting on truthiness, applied to the value bound to
the title key.  Both subscripts are direct and can raise. -/
def resolve_title (titlev : Json) : Except PyErr Json :=
  match jindex titlev "english" with
  | .error e => .error e
  | .ok e =>
    if pyTruthy e then .ok e
    else
      match jindex titlev "romaji" with
      | .error er => .error er
      | .ok r => .ok (if pyTruthy r then r else Json.str "Untitled")

/-- str.join requires every joined element to be a string: collect the
elements, raising TypeError at the first non-string. -/
def join_items : List Json → Except PyErr (List String)
  | [] => .ok []
  | Json.str s :: rest =>
    match join_items rest with
    | .error e => .error e
    | .ok ss => .ok (s :: ss)
  | _ :: _ => .error .typeError

/-- Line 186: ", ".join(media.get("genres", [])[:3]).  Slicing a list takes
the first three elements and join then requires every element to be a
string; slicing a string takes its first three characters, which join
renders one per element; slicing any other value raises TypeError. -/
def join_genres : Json → Except PyErr String
  | .arr xs =>
    match join_items (xs.take 3) with
    | .error e => .error e
    | .ok ss => .ok (py_join ", " ss)
  | .str s => .ok (py_join ", " ((s.data.take 3).map (fun c => String.mk [c])))
  | _ => .error .typeError

/-- One iteration of the normalization loop (lines 181-188): resolve the
title (direct subscripts, fallible), then build the appended dict whose
fields are title, score (dict.get with default "N/A"), genres (joined top
three) and url (dict.get with default).  There is no episodes field.  A
non-dict media record raises TypeError at the first subscript. -/
def normalize_one (media : Json) : Except PyErr PyDict :=
  match media with
  | .obj kvs =>
    (match jindex media "title" with
     | .error e => .error e
     | .ok titlev =>
       match resolve_title titlev with
       | .error e => .error e
       | .ok title =>
         match join_genres (dget kvs "genres" (Json.arr [])) with
         | .error e => .error e
         | .ok gs =>
           .ok [("title", title),
                ("score", dget kvs "averageScore" (Json.str "N/A")),
                ("genres", Json.str gs),
                ("url", dget kvs "siteUrl" (Json.str "https://anilist.co"))])
  | _ => .error .typeError

/-- The whole loop over media_items, preserving order; the first raising
record aborts the loop (the exception escapes to the webhook handler). -/
def normalize_media : List Json → Except PyErr (List PyDict)
  | [] => .ok []
  | m :: ms =>
    match normalize_one m with
    | .error e => .error e
    | .ok r =>
      match normalize_media ms with
      | .error e => .error e
      | .ok rs => .ok (r :: rs)

/-- Python iteration over the media value fed to the for loop (line 181):
a list yields its elements; an empty string or empty dict yields nothing;
a non-empty string or dict yields strings, on which the loop body raises
TypeError at media[title]; other values are not iterable (TypeError). -/
def media_list : Json → Except PyErr (List Json)
  | .arr xs => .ok xs
  | .str s => if s.isEmpty then .ok [] else .error .typeError
  | .obj kvs => if kvs.isEmpty then .ok [] else .error .typeError
  | _ => .error .typeError

/-! ## Webhook orchestrator: webhook (src/app.py lines 138-213)

The inbound request body is the parameter `data : Json` (the value of
request.get_json(); Json.null models a body from which no JSON could be
read).  The AniList HTTP call is `svc : Except Unit (Int × Json)`: an error
value stands for a raised requests exception (timeout, connection error),
an ok value is the status code with the parsed response body. -/

/-- The response envelope produced by jsonify: the fulfillmentText field and
the fulfillmentMessages value. -/
structure Envelope where
  fulfillmentText : String
  fulfillmentMessages : Json

/-- The fixed envelope for an empty query (lines 146-149). -/
def invalid_envelope : Envelope :=
  ⟨"Try harder with that query! 💢",
   Json.arr [Json.obj [("text", Json.obj [("text", Json.arr [Json.str "Invalid query"])])]]⟩

/-- The fixed envelope for a non-200 AniList status (lines 169-172). -/
def glitch_envelope : Envelope :=
  ⟨"AniList glitched! 🛠️ Try different terms",
   Json.arr [Json.obj [("text", Json.obj [("text", Json.arr [Json.str "API Error"])])]]⟩

/-- The fixed envelope of the catch-all except clause (lines 210-213). -/
def crash_envelope : Envelope :=
  ⟨"System crashed...too much sass overload 💥",
   Json.arr [Json.obj [("text", Json.obj [("text", Json.arr [Json.str "Server error"])])]]⟩

/-- The success envelope (lines 192-206). -/
def success_envelope (nikko : String) (recs : List PyDict) (req_count : Json) :
    Envelope :=
  ⟨nikko,
   Json.arr [Json.obj [("text", Json.obj [("text", Json.arr [Json.str nikko])]),
                       ("platform", Json.str "DIALOGFLOW_CONSOLE")],
             Json.obj [("payload",
               Json.obj [("recommendations", Json.arr (recs.map Json.obj)),
                         ("requested_count", req_count)])]]⟩

/-- Line 143: data.get("queryResult", empty dict).get("queryText", "").strip().
Each .get needs a dict receiver (AttributeError otherwise, in particular when
get_json returned None) and .strip() needs a string receiver. -/
def get_user_query (data : Json) : Except PyErr String :=
  match data with
  | .obj kvs =>
    (match dget kvs "queryResult" (Json.obj []) with
     | .obj kvs2 =>
       (match dget kvs2 "queryText" (Json.str "") with
        | .str s => .ok (pyStrip s)
        | _ => .error .attributeError)
     | _ => .error .attributeError)
  | _ => .error .attributeError

/-- Python j.get(k, default) where j must be a dict (AttributeError else). -/
def jget (j : Json) (k : String) (deflt : Json) : Except PyErr Json :=
  match j with
  | .obj kvs => .ok (dget kvs k deflt)
  | _ => .error .attributeError

/-- The try block of webhook (lines 141-206), in source order: read the
query text, short-circuit on an empty query, parse parameters, read
params[request_count] by direct subscript, build the AniList request, issue
the HTTP call, short-circuit on a non-200 status, drill into the body with
chained .get defaults, iterate the media list through the normalizer, and
synthesize the reply. -/
def webhook_try (data : Json) (llm1 : Except Unit Json)
    (svc : Except Unit (Int × Json)) (llm2 : String → Except Unit String)
    (choice : Bool) : Except PyErr Envelope :=
  match get_user_query data with
  | .error e => .error e
  | .ok user_query =>
    if user_query = "" then .ok invalid_envelope
    else
      let params := parse_query llm1
      match dlookup params "request_count" with
      | none => .error .keyError
      | some req_count =>
        match build_anilist_query params with
        | .error e => .error e
        | .ok _req =>
          match svc with
          | .error _ => .error .requestError
          | .ok (status, body) =>
            if status ≠ 200 then .ok glitch_envelope
            else
              match jget body "data" (Json.obj []) with
              | .error e => .error e
              | .ok dataj =>
                match jget dataj "Page" (Json.obj []) with
                | .error e => .error e
                | .ok pagej =>
                  match jget pagej "media" (Json.arr []) with
                  | .error e => .error e
                  | .ok mediaj =>
                    match media_list mediaj with
                    | .error e => .error e
                    | .ok items =>
                      match normalize_media items with
                      | .error e => .error e
                      | .ok recommendations =>
                        match generate_nikko_response user_query
                            recommendations req_count llm2 choice with
                        | .error e => .error e
                        | .ok nikko =>
                          .ok (success_envelope nikko recommendations req_count)

/-- webhook (src/app.py lines 138-213): the whole try block sits inside a
catch-all except clause that returns the fixed crash envelope, so the
handler resolves every exception to an envelope; the Except result type
records that the handler itself no longer raises. -/
def webhook (data : Json) (llm1 : Except Unit Json)
    (svc : Except Unit (Int × Json)) (llm2 : String → Except Unit String)
    (choice : Bool) : Except PyErr Envelope :=
  match webhook_try data llm1 svc llm2 choice with
  | .ok env => .ok env
  | .error _ => .ok crash_envelope

/-! ## Derived observers and verification infrastructure -/

/-- The title string of a normalized recommendation record, as rendered by
the enumerated listing. -/
def rec_title (r : PyDict) : String := pyStr (dget r "title" Json.null)

/-- Whether a genre name is multi-word or hyphenated. -/
def has_sep (s : String) : Bool := s.data.any (fun c => c == ' ' || c == '-')

/-- The text contains the given strings as disjoint substrings, in order. -/
inductive ContainsInOrder : String → List String → Prop
  | nil (s : String) : ContainsInOrder s []
  | cons (pre t rest : String) (ts : List String) :
      ContainsInOrder rest ts → ContainsInOrder (pre ++ t ++ rest) (t :: ts)

theorem ContainsInOrder.prepend (p : String) {s : String} {ts : List String}
    (h : ContainsInOrder s ts) : ContainsInOrder (p ++ s) ts := by
  cases h with
  | nil => exact .nil _
  | cons pre t rest ts h2 =>
    have e : p ++ (pre ++ t ++ rest) = (p ++ pre) ++ t ++ rest := by
      simp only [String.append_assoc]
    rw [e]
    exact .cons _ _ _ _ h2

/-- Step case tailored to the right-associated shape of one enumerated
line followed by the remaining text. -/
theorem ContainsInOrder.step (p1 p2 t rest : String) (ts : List String)
    (h : ContainsInOrder rest ts) :
    ContainsInOrder (p1 ++ (p2 ++ (t ++ rest))) (t :: ts) := by
  have e : p1 ++ (p2 ++ (t ++ rest)) = (p1 ++ p2) ++ t ++ rest := by
    simp only [String.append_assoc]
  rw [e]
  exact .cons _ _ _ _ h

theorem dlookup_dset_self (d : PyDict) (k : String) (v : Json) :
    dlookup (dset d k v) k = some v := by
  induction d with
  | nil => simp [dset, dlookup]
  | cons p rest ih =>
    obtain ⟨k1, v1⟩ := p
    by_cases h : k1 = k <;> simp [dset, dlookup, h, ih]

theorem dlookup_dset_ne (d : PyDict) (k k2 : String) (v : Json) (h : k ≠ k2) :
    dlookup (dset d k v) k2 = dlookup d k2 := by
  induction d with
  | nil => simp [dset, dlookup, h]
  | cons p rest ih =>
    obtain ⟨k1, v1⟩ := p
    by_cases h1 : k1 = k
    · subst h1
      simp [dset, dlookup, h]
    · by_cases h2 : k1 = k2
      · subst h2
        simp [dset, dlookup, h1]
      · simp [dset, dlookup, h1, h2, ih]

theorem dget_dset_ne (d : PyDict) (k k2 : String) (v deflt : Json) (h : k ≠ k2) :
    dget (dset d k v) k2 deflt = dget d k2 deflt := by
  simp [dget, dlookup_dset_ne d k k2 v h]

theorem dget_dset_self (d : PyDict) (k : String) (v deflt : Json) :
    dget (dset d k v) k deflt = v := by
  simp [dget, dlookup_dset_self]

/-- On records that carry title and score keys, the enumerated rendering
succeeds, has one line per record, and contains the rendered titles in input
order. -/
theorem rec_lines_ok (recs : List PyDict)
    (hwf : ∀ r ∈ recs, (∃ t, dlookup r "title" = some t) ∧
      (∃ sc, dlookup r "score" = some sc)) :
    ∀ i, ∃ ls, rec_lines i recs = .ok ls ∧ ls.length = recs.length ∧
      ContainsInOrder (py_join "\n" ls) (recs.map rec_title) := by
  induction recs with
  | nil => exact fun i => ⟨[], rfl, rfl, .nil _⟩
  | cons r rest ih =>
    intro i
    obtain ⟨⟨t, ht⟩, ⟨sc, hsc⟩⟩ := hwf r (List.mem_cons_self _ _)
    obtain ⟨ls, hls, hlen, hcio⟩ :=
      ih (fun r2 hr2 => hwf r2 (List.mem_cons_of_mem _ hr2)) (i + 1)
    have hline : rec_line i r
        = .ok ((toString (i + 1) ++ ". ") ++ pyStr t ++ (" (" ++ pyStr sc ++ "/100)")) := by
      simp [rec_line, ht, hsc]
    have htitle : rec_title r = pyStr t := by
      simp [rec_title, dget, ht]
    refine ⟨((toString (i + 1) ++ ". ") ++ pyStr t ++ (" (" ++ pyStr sc ++ "/100)")) :: ls,
      ?_, ?_, ?_⟩
    · simp [rec_lines, hline, hls]
    · simp [hlen]
    · cases ls with
      | nil =>
        have hrest : rest = [] := List.length_eq_zero.mp hlen.symm
        subst hrest
        simp only [List.map_cons, List.map_nil, py_join, htitle]
        have e : (toString (i + 1) ++ ". ") ++ pyStr t ++ (" (" ++ pyStr sc ++ "/100)")
            = toString (i + 1) ++ (". " ++ (pyStr t ++ (" (" ++ (pyStr sc ++ "/100)")))) := by
          simp only [String.append_assoc]
        rw [e]
        exact .step _ _ _ _ _ (.nil _)
      | cons l2 ls2 =>
        simp only [List.map_cons, py_join, htitle]
        have e : ((toString (i + 1) ++ ". ") ++ pyStr t ++ (" (" ++ pyStr sc ++ "/100)"))
              ++ "\n" ++ py_join "\n" (l2 :: ls2)
            = toString (i + 1) ++ (". " ++ (pyStr t ++
                (" (" ++ (pyStr sc ++ ("/100)" ++ ("\n" ++ py_join "\n" (l2 :: ls2))))))) := by
          simp only [String.append_assoc]
        rw [e]
        exact .step _ _ _ _ _
          (((hcio.prepend "\n").prepend "/100)").prepend (pyStr sc) |>.prepend " (")

/-! ## Claims -/

/-- Claim C1, counterexample: on a model reply binding request_count to 0 and
genres to the non-allow-listed value Zombie, parse_query returns
request_count = 0, which is below the claimed range [1,10], and keeps the
genre Zombie, which is outside the allow-list: parse_query neither clamps
from below nor filters genres. -/
theorem C1_counterexample :
    parse_query (.ok (Json.obj [("genres", Json.arr [Json.str "Zombie"]),
        ("request_count", Json.num 0)]))
      = [("genres", Json.arr [Json.str "Zombie"]), ("request_count", Json.num 0)] ∧
    ¬ (1 ≤ (0 : Int)) ∧
    "Zombie" ∉ valid_genres :=
  ⟨by rfl, by decide, by decide⟩

/-- Any successful run of the try block of parse_query ends with the
request_count assignment, so the result is a dict updated at that key with
the upper-clamped integer. -/
theorem parse_query_try_ok_shape (reply : Except Unit Json) (d : PyDict)
    (h : parse_query_try reply = .ok d) :
    ∃ kvs2 rc, d = dset kvs2 "request_count" (Json.num (min rc 10)) := by
  rcases reply with u | j
  · simp [parse_query_try] at h
  · cases j with
    | obj kvs =>
      rw [parse_query_try] at h
      cases hg : genre_format kvs with
      | error e => simp [hg] at h
      | ok kvs2 =>
        simp only [hg] at h
        cases hi : pyInt (dget kvs2 "request_count" (Json.num 3)) with
        | error e => simp [hi] at h
        | ok rc =>
          simp only [hi] at h
          injection h with h2
          exact ⟨kvs2, rc, h2.symm⟩
    | null => simp [parse_query_try] at h
    | bool b => simp [parse_query_try] at h
    | num n => simp [parse_query_try] at h
    | str s => simp [parse_query_try] at h
    | arr xs => simp [parse_query_try] at h

/-- Claim C1, amended: parse_query is total (any exception in its body is
caught and replaced by the default dict) and the returned dict always binds
request_count to an integer clamped from above to 10 (3 on any failure); no
lower clamp is applied and genres are not checked against the allow-list
here (that check happens in build_anilist_query). -/
theorem C1_amended_parse_query_total_and_clamped_above
    (reply : Except Unit Json) :
    ∃ n : Int, dlookup (parse_query reply) "request_count" = some (Json.num n) ∧
      n ≤ 10 := by
  cases h : parse_query_try reply with
  | error e =>
    refine ⟨3, ?_, by norm_num⟩
    simp [parse_query, h, dlookup]
  | ok d =>
    obtain ⟨kvs2, rc, rfl⟩ := parse_query_try_ok_shape reply d h
    refine ⟨min rc 10, ?_, min_le_right _ _⟩
    simp [parse_query, h, dlookup_dset_self]

/-- Claim C2, counterexample: with no similarity anchor and binge = true the
built sort is TRENDING_DESC, not the claimed POPULARITY_DESC, and flipping
binge to false yields the identical request, so binge does not flip the
sort order in the no-anchor case. -/
theorem C2_counterexample :
    build_anilist_query [("binge", Json.bool true)]
      = .ok ⟨anilist_query_text (Json.num 3),
          [("search", Json.null), ("genre_in", Json.arr []),
           ("minEpisodes", Json.num 0), ("sort", Json.str "TRENDING_DESC")]⟩ ∧
    build_anilist_query [("binge", Json.bool false)]
      = .ok ⟨anilist_query_text (Json.num 3),
          [("search", Json.null), ("genre_in", Json.arr []),
           ("minEpisodes", Json.num 0), ("sort", Json.str "TRENDING_DESC")]⟩ ∧
    "TRENDING_DESC" ≠ "POPULARITY_DESC" :=
  ⟨by rfl, by rfl, by decide⟩

/-- Claim C9: build_anilist_query is not total.  parse_query succeeds on a
model reply binding min_episodes to the string "many" and passes it through;
int("many") then raises ValueError inside build_anilist_query, which has no
try/except, and the webhook handler resolves the escaped exception with its
generic catch-all crash envelope instead of any per-stage default. -/
theorem C9_build_not_total :
    parse_query (.ok (Json.obj [("min_episodes", Json.str "many")]))
      = [("min_episodes", Json.str "many"), ("request_count", Json.num 3)] ∧
    build_anilist_query
        [("min_episodes", Json.str "many"), ("request_count", Json.num 3)]
      = .error .valueError ∧
    webhook
        (Json.obj [("queryResult",
          Json.obj [("queryText", Json.str "anime with many episodes")])])
        (.ok (Json.obj [("min_episodes", Json.str "many")]))
        (.ok (200, Json.obj [])) (fun _ => .ok "summary") true
      = .ok crash_envelope :=
  ⟨by rfl, by rfl, by rfl⟩

/-- Claim C10: on the non-empty recommendation list containing one record
without a title key, the formatting generator raises KeyError before the
name recs_formatted is bound, and the except clause then raises NameError on
that unbound name, so generate_nikko_response raises instead of returning
fallback text, whatever the model behaviour: synthesis is not total on
non-empty input. -/
theorem C10_synthesis_nameError (query : String) (req_count : Json)
    (llm : String → Except Unit String) (choice : Bool) :
    format_recs [([] : PyDict)] = .error .keyError ∧
    generate_nikko_response query [([] : PyDict)] req_count llm choice
      = .error .nameError :=
  ⟨by rfl, by rfl⟩

/-- Claim C5, counterexample: the normalizer subscripts the title object
directly, so a record without a title key - and likewise a title object
without an english key - raises KeyError rather than falling back: the
claimed never-raises behaviour fails for a missing title object. -/
theorem C5_counterexample :
    normalize_one (Json.obj []) = .error .keyError ∧
    normalize_one (Json.obj [("title", Json.obj [("romaji", Json.str "Mono")])])
      = .error .keyError :=
  ⟨by rfl, by rfl⟩

/-- Claim C5, amended: on a record whose title object carries english and
romaji keys, the precedence English title, else romanized title, else the
placeholder "Untitled" holds, the resolved title is never the empty string,
and the missing optional fields score, episodes, url and genres do not
raise (their defaults "N/A", "" and the fixed url are used); only a missing
title object or a missing english/romaji key raises (see the
counterexample). -/
theorem C5_amended_title_precedence (e r : Json) :
    ∃ d, normalize_one
        (Json.obj [("title", Json.obj [("english", e), ("romaji", r)])]) = .ok d ∧
      dlookup d "title"
        = some (if pyTruthy e then e else if pyTruthy r then r else Json.str "Untitled") ∧
      (if pyTruthy e then e else if pyTruthy r then r else Json.str "Untitled")
        ≠ Json.str "" ∧
      dlookup d "score" = some (Json.str "N/A") ∧
      dlookup d "genres" = some (Json.str "") ∧
      dlookup d "url" = some (Json.str "https://anilist.co") := by
  cases he : pyTruthy e with
  | true =>
    refine ⟨[("title", e), ("score", Json.str "N/A"), ("genres", Json.str ""),
             ("url", Json.str "https://anilist.co")], ?_, ?_, ?_, ?_, ?_, ?_⟩
    · simp [normalize_one, jindex, resolve_title, join_genres, dlookup, dget,
        py_join, he, join_items]
    · simp [dlookup, he]
    · simp only [he, if_true]
      intro hcontra
      subst hcontra
      simp [pyTruthy] at he
    · simp [dlookup]
    · simp [dlookup]
    · simp [dlookup]
  | false =>
    cases hr : pyTruthy r with
    | true =>
      refine ⟨[("title", r), ("score", Json.str "N/A"), ("genres", Json.str ""),
               ("url", Json.str "https://anilist.co")], ?_, ?_, ?_, ?_, ?_, ?_⟩
      · simp [normalize_one, jindex, resolve_title, join_genres, dlookup, dget,
          py_join, he, hr, join_items]
      · simp [dlookup, he, hr]
      · simp only [he, hr, if_true, Bool.false_eq_true, if_false]
        intro hcontra
        subst hcontra
        simp [pyTruthy] at hr
      · simp [dlookup]
      · simp [dlookup]
      · simp [dlookup]
    | false =>
      refine ⟨[("title", Json.str "Untitled"), ("score", Json.str "N/A"),
               ("genres", Json.str ""), ("url", Json.str "https://anilist.co")],
        ?_, ?_, ?_, ?_, ?_, ?_⟩
      · simp [normalize_one, jindex, resolve_title, join_genres, dlookup, dget,
          py_join, he, hr, join_items]
      · simp [dlookup, he, hr]
      · simp [he, hr]
      · simp [dlookup]
      · simp [dlookup]
      · simp [dlookup]

/-- Claim C6, counterexample: on a full media record that does carry an
episodes value, the normalized record has only the keys title, score,
genres, url - the episodes field is dropped entirely, not mapped to a
sentinel, so the record passed to rendering has no episodes field. -/
theorem C6_counterexample :
    normalize_one (Json.obj [("title",
        Json.obj [("english", Json.str "Steins;Gate"),
                  ("romaji", Json.str "Shutainzu Geto")]),
      ("averageScore", Json.num 90), ("episodes", Json.num 24),
      ("genres", Json.arr [Json.str "Sci-Fi", Json.str "Thriller"]),
      ("siteUrl", Json.str "https://anilist.co/anime/9253")])
      = .ok [("title", Json.str "Steins;Gate"), ("score", Json.num 90),
             ("genres", Json.str "Sci-Fi, Thriller"),
             ("url", Json.str "https://anilist.co/anime/9253")] ∧
    dlookup [("title", Json.str "Steins;Gate"), ("score", Json.num 90),
             ("genres", Json.str "Sci-Fi, Thriller"),
             ("url", Json.str "https://anilist.co/anime/9253")] "episodes" = none :=
  ⟨by rfl, by rfl⟩

/-- Claim C6, amended: every record the normalizer produces has exactly the
key sequence title, score, genres, url; a missing averageScore maps to the
"N/A" sentinel; no episodes field is ever present. -/
theorem C6_amended_shape (kvs : List (String × Json)) (d : PyDict)
    (h : normalize_one (Json.obj kvs) = .ok d) :
    d.map Prod.fst = ["title", "score", "genres", "url"] ∧
    dlookup d "episodes" = none ∧
    (dlookup kvs "averageScore" = none →
      dlookup d "score" = some (Json.str "N/A")) := by
  rw [normalize_one] at h
  cases h1 : jindex (Json.obj kvs) "title" with
  | error e => simp [h1] at h
  | ok titlev =>
    simp only [h1] at h
    cases h2 : resolve_title titlev with
    | error e => simp [h2] at h
    | ok title =>
      simp only [h2] at h
      cases h3 : join_genres (dget kvs "genres" (Json.arr [])) with
      | error e => simp [h3] at h
      | ok gs =>
        simp only [h3] at h
        injection h with h4
        subst h4
        refine ⟨by rfl, by simp [dlookup], ?_⟩
        intro hnone
        simp [dlookup, dget, hnone]

/-- Witness for the amended C6 at a concrete record without averageScore. -/
theorem C6_amended_shape_witness :
    ([("title", Json.str "A"), ("score", Json.str "N/A"), ("genres", Json.str ""),
      ("url", Json.str "https://anilist.co")] : PyDict).map Prod.fst
      = ["title", "score", "genres", "url"] ∧
    dlookup [("title", Json.str "A"), ("score", Json.str "N/A"),
      ("genres", Json.str ""), ("url", Json.str "https://anilist.co")] "episodes"
      = none ∧
    dlookup [("title", Json.str "A"), ("score", Json.str "N/A"),
      ("genres", Json.str ""), ("url", Json.str "https://anilist.co")] "score"
      = some (Json.str "N/A") :=
  have h := C6_amended_shape
    [("title", Json.obj [("english", Json.str "A"), ("romaji", Json.null)])]
    [("title", Json.str "A"), ("score", Json.str "N/A"), ("genres", Json.str ""),
     ("url", Json.str "https://anilist.co")] (by rfl)
  ⟨h.1, h.2.1, h.2.2 (by rfl)⟩

/-- Claim C7, counterexample: a whitespace-only similar_to is truthy in
Python, so it is kept as the search value (not omitted, not None) and the
sort is the anchored SCORE_DESC, not the no-anchor fallback: whitespace-only
is not treated as absent. -/
theorem C7_counterexample :
    build_anilist_query [("similar_to", Json.str " ")]
      = .ok ⟨anilist_query_text (Json.num 3),
             [("search", Json.str " "), ("genre_in", Json.arr []),
              ("minEpisodes", Json.num 0), ("sort", Json.str "SCORE_DESC")]⟩ ∧
    Json.str " " ≠ Json.null :=
  ⟨by rfl, fun hcontra => Json.noConfusion hcontra⟩

/-- Claim C7, amended: an absent or falsy (in particular empty-string)
similar_to is treated as no anchor: the search variable is set to None
(null) - the key stays present with a null value rather than being omitted -
and the sort falls back to TRENDING_DESC; whitespace-only strings are truthy
and therefore treated as a present anchor (see the counterexample). -/
theorem C7_amended_falsy_anchor (params : PyDict) (q : AnilistRequest)
    (hfalsy : pyTruthy (dget params "similar_to" Json.null) = false)
    (hq : build_anilist_query params = .ok q) :
    dlookup q.vars "search" = some Json.null ∧
    dlookup q.vars "sort" = some (Json.str "TRENDING_DESC") := by
  have hs : pyTruthy (dget params "similar_to" (Json.str "")) = false := by
    cases hd : dlookup params "similar_to" with
    | none => simp [dget, hd, pyTruthy]
    | some v =>
      simp only [dget, hd, Option.getD_some] at hfalsy ⊢
      exact hfalsy
  rw [build_anilist_query] at hq
  cases h1 : pyMinTen (dget params "request_count" (Json.num 3)) with
  | error e => simp [h1] at hq
  | ok rq =>
    simp only [h1] at hq
    cases h2 : pyInt (dget params "min_episodes" (Json.num 0)) with
    | error e => simp [h2] at hq
    | ok minEp =>
      simp only [h2, hs, hfalsy] at hq
      injection hq with h3
      subst h3
      exact ⟨by simp [dlookup], by simp [dlookup]⟩

/-- Witness for the amended C7 at an explicit empty-string anchor. -/
theorem C7_amended_falsy_anchor_witness :
    dlookup (AnilistRequest.mk (anilist_query_text (Json.num 3))
        [("search", Json.null), ("genre_in", Json.arr []),
         ("minEpisodes", Json.num 0), ("sort", Json.str "TRENDING_DESC")]).vars
      "search" = some Json.null ∧
    dlookup (AnilistRequest.mk (anilist_query_text (Json.num 3))
        [("search", Json.null), ("genre_in", Json.arr []),
         ("minEpisodes", Json.num 0), ("sort", Json.str "TRENDING_DESC")]).vars
      "sort" = some (Json.str "TRENDING_DESC") :=
  C7_amended_falsy_anchor [("similar_to", Json.str "")] _ (by rfl) (by rfl)


/-- Claim C8: every multi-word or hyphenated allow-list genre, when returned
by the model in lowercase, is capitalized by parse_query only at its first
character, which no longer matches the allow-list exactly, so
validate_genres drops it from the outbound query. -/
theorem C8_lowercase_multiword_genres_dropped (g : String)
    (hmem : g ∈ valid_genres) (hsep : has_sep g = true) :
    parse_query (.ok (Json.obj [("genres", Json.arr [Json.str (pyLower g)])]))
      = [("genres", Json.arr [Json.str (pyCapitalize (pyLower g))]),
         ("request_count", Json.num 3)] ∧
    pyCapitalize (pyLower g) ∉ valid_genres ∧
    validate_genres (Json.arr [Json.str (pyCapitalize (pyLower g))]) = [] := by
  simp only [valid_genres, List.mem_cons, List.not_mem_nil, or_false] at hmem
  rcases hmem with rfl|rfl|rfl|rfl|rfl|rfl|rfl|rfl|rfl|rfl|rfl|rfl|rfl <;>
    first
      | exact absurd hsep (by decide)
      | exact ⟨by rfl, by decide, by rfl⟩

/-- Witness for C8 at the lowercase form of Sci-Fi. -/
theorem C8_lowercase_multiword_genres_dropped_witness :
    parse_query
        (.ok (Json.obj [("genres", Json.arr [Json.str (pyLower "Sci-Fi")])]))
      = [("genres", Json.arr [Json.str (pyCapitalize (pyLower "Sci-Fi"))]),
         ("request_count", Json.num 3)] ∧
    pyCapitalize (pyLower "Sci-Fi") ∉ valid_genres ∧
    validate_genres (Json.arr [Json.str (pyCapitalize (pyLower "Sci-Fi"))]) = [] :=
  C8_lowercase_multiword_genres_dropped "Sci-Fi" (by decide) (by decide)

/-- Claim C2, amended: the sort policy is TRENDING_DESC whenever the
similarity anchor is absent or falsy, regardless of binge, and otherwise
POPULARITY_DESC when binge is truthy and SCORE_DESC when not; holding the
other parameters fixed and varying only binge changes at most the sort
variable - it flips between POPULARITY_DESC and SCORE_DESC when an anchor is
present and changes nothing at all when it is not. -/
theorem C2_amended_binge_only_flips_anchored_sort (params : PyDict)
    (q1 q2 : AnilistRequest)
    (h1 : build_anilist_query (dset params "binge" (Json.bool true)) = .ok q1)
    (h2 : build_anilist_query (dset params "binge" (Json.bool false)) = .ok q2) :
    q1.query = q2.query ∧
    dlookup q1.vars "search" = dlookup q2.vars "search" ∧
    dlookup q1.vars "genre_in" = dlookup q2.vars "genre_in" ∧
    dlookup q1.vars "minEpisodes" = dlookup q2.vars "minEpisodes" ∧
    (if pyTruthy (dget params "similar_to" Json.null) then
       dlookup q1.vars "sort" = some (Json.str "POPULARITY_DESC") ∧
       dlookup q2.vars "sort" = some (Json.str "SCORE_DESC")
     else q1 = q2 ∧ dlookup q1.vars "sort" = some (Json.str "TRENDING_DESC")) := by
  have hne : ∀ (b : Bool) (k : String), "binge" ≠ k → ∀ dv : Json,
      dget (dset params "binge" (Json.bool b)) k dv = dget params k dv :=
    fun b k hk dv => dget_dset_ne params "binge" k (Json.bool b) dv hk
  have hb : ∀ b : Bool,
      dget (dset params "binge" (Json.bool b)) "binge" Json.null = Json.bool b :=
    fun b => dget_dset_self params "binge" (Json.bool b) Json.null
  rw [build_anilist_query] at h1 h2
  rw [hne true "request_count" (by decide) (Json.num 3)] at h1
  rw [hne false "request_count" (by decide) (Json.num 3)] at h2
  cases hmin : pyMinTen (dget params "request_count" (Json.num 3)) with
  | error e =>
    rw [hmin] at h1
    simp at h1
  | ok rq =>
    simp only [hmin] at h1 h2
    rw [hne true "min_episodes" (by decide) (Json.num 0)] at h1
    rw [hne false "min_episodes" (by decide) (Json.num 0)] at h2
    cases hint : pyInt (dget params "min_episodes" (Json.num 0)) with
    | error e =>
      rw [hint] at h1
      simp at h1
    | ok minEp =>
      simp only [hint] at h1 h2
      rw [hne true "similar_to" (by decide) (Json.str ""),
          hne true "similar_to" (by decide) Json.null,
          hne true "genres" (by decide) (Json.arr []), hb true] at h1
      rw [hne false "similar_to" (by decide) (Json.str ""),
          hne false "similar_to" (by decide) Json.null,
          hne false "genres" (by decide) (Json.arr []), hb false] at h2
      injection h1 with h1e
      injection h2 with h2e
      subst h1e
      subst h2e
      by_cases hsim : pyTruthy (dget params "similar_to" Json.null) = true
      · simp [hsim, dlookup]
        exact ⟨rfl, rfl⟩
      · have hsim2 : pyTruthy (dget params "similar_to" Json.null) = false := by
          simpa using hsim
        simp [hsim2, dlookup]

/-- Witness for the amended C2 at an anchored query. -/
theorem C2_amended_binge_only_flips_anchored_sort_witness :
    (AnilistRequest.mk (anilist_query_text (Json.num 3))
        [("search", Json.str "Naruto"), ("genre_in", Json.arr []),
         ("minEpisodes", Json.num 0),
         ("sort", Json.str "POPULARITY_DESC")]).query
      = (AnilistRequest.mk (anilist_query_text (Json.num 3))
        [("search", Json.str "Naruto"), ("genre_in", Json.arr []),
         ("minEpisodes", Json.num 0), ("sort", Json.str "SCORE_DESC")]).query ∧
    dlookup (AnilistRequest.mk (anilist_query_text (Json.num 3))
        [("search", Json.str "Naruto"), ("genre_in", Json.arr []),
         ("minEpisodes", Json.num 0),
         ("sort", Json.str "POPULARITY_DESC")]).vars "search"
      = dlookup (AnilistRequest.mk (anilist_query_text (Json.num 3))
        [("search", Json.str "Naruto"), ("genre_in", Json.arr []),
         ("minEpisodes", Json.num 0), ("sort", Json.str "SCORE_DESC")]).vars
        "search" ∧
    dlookup (AnilistRequest.mk (anilist_query_text (Json.num 3))
        [("search", Json.str "Naruto"), ("genre_in", Json.arr []),
         ("minEpisodes", Json.num 0),
         ("sort", Json.str "POPULARITY_DESC")]).vars "genre_in"
      = dlookup (AnilistRequest.mk (anilist_query_text (Json.num 3))
        [("search", Json.str "Naruto"), ("genre_in", Json.arr []),
         ("minEpisodes", Json.num 0), ("sort", Json.str "SCORE_DESC")]).vars
        "genre_in" ∧
    dlookup (AnilistRequest.mk (anilist_query_text (Json.num 3))
        [("search", Json.str "Naruto"), ("genre_in", Json.arr []),
         ("minEpisodes", Json.num 0),
         ("sort", Json.str "POPULARITY_DESC")]).vars "minEpisodes"
      = dlookup (AnilistRequest.mk (anilist_query_text (Json.num 3))
        [("search", Json.str "Naruto"), ("genre_in", Json.arr []),
         ("minEpisodes", Json.num 0), ("sort", Json.str "SCORE_DESC")]).vars
        "minEpisodes" ∧
    (if pyTruthy (dget [("similar_to", Json.str "Naruto")] "similar_to" Json.null)
     then
       dlookup (AnilistRequest.mk (anilist_query_text (Json.num 3))
           [("search", Json.str "Naruto"), ("genre_in", Json.arr []),
            ("minEpisodes", Json.num 0),
            ("sort", Json.str "POPULARITY_DESC")]).vars "sort"
         = some (Json.str "POPULARITY_DESC") ∧
       dlookup (AnilistRequest.mk (anilist_query_text (Json.num 3))
           [("search", Json.str "Naruto"), ("genre_in", Json.arr []),
            ("minEpisodes", Json.num 0),
            ("sort", Json.str "SCORE_DESC")]).vars "sort"
         = some (Json.str "SCORE_DESC")
     else AnilistRequest.mk (anilist_query_text (Json.num 3))
          [("search", Json.str "Naruto"), ("genre_in", Json.arr []),
           ("minEpisodes", Json.num 0), ("sort", Json.str "POPULARITY_DESC")]
        = AnilistRequest.mk (anilist_query_text (Json.num 3))
          [("search", Json.str "Naruto"), ("genre_in", Json.arr []),
           ("minEpisodes", Json.num 0), ("sort", Json.str "SCORE_DESC")] ∧
       dlookup (AnilistRequest.mk (anilist_query_text (Json.num 3))
           [("search", Json.str "Naruto"), ("genre_in", Json.arr []),
            ("minEpisodes", Json.num 0),
            ("sort", Json.str "POPULARITY_DESC")]).vars "sort"
         = some (Json.str "TRENDING_DESC")) :=
  C2_amended_binge_only_flips_anchored_sort [("similar_to", Json.str "Naruto")]
    _ _ (by rfl) (by rfl)


/-- Claim C3: on a non-empty list of normalized recommendation records
(each carries the title and score fields, as every record produced by the
normalizer does), a failing model call makes generate_nikko_response return
the fixed label followed by the deterministic enumerated listing, which
contains every title in input order and is never empty; no error escapes. -/
theorem C3_synthesis_fallback (query : String) (req_count : Json)
    (choice : Bool) (llm : String → Except Unit String) (recs : List PyDict)
    (hne : recs ≠ [])
    (hwf : ∀ r ∈ recs, (∃ t, dlookup r "title" = some t) ∧
      (∃ sc, dlookup r "score" = some sc))
    (hfail : ∀ p, llm p = .error ()) :
    (∃ fmt, format_recs recs = .ok fmt) ∧
    ∀ fmt, format_recs recs = .ok fmt →
      generate_nikko_response query recs req_count llm choice
        = .ok ("🔥 Top Picks:\n" ++ fmt) ∧
      ContainsInOrder ("🔥 Top Picks:\n" ++ fmt) (recs.map rec_title) ∧
      "🔥 Top Picks:\n" ++ fmt ≠ "" := by
  obtain ⟨ls, hls, hlen, hcio⟩ := rec_lines_ok recs hwf 0
  have hfmt : format_recs recs = .ok (py_join "\n" ls) := by
    simp [format_recs, hls]
  refine ⟨⟨_, hfmt⟩, ?_⟩
  intro fmt hf
  rw [hfmt] at hf
  injection hf with hf2
  subst hf2
  refine ⟨?_, hcio.prepend _, ?_⟩
  · rcases recs with _ | ⟨r, rest⟩
    · exact absurd rfl hne
    · simp [generate_nikko_response, hfmt, hfail]
  · intro hcontra
    have hlenc := congrArg String.length hcontra
    rw [String.length_append] at hlenc
    have hlab : String.length "🔥 Top Picks:\n" = 13 := by rfl
    rw [hlab] at hlenc
    simp at hlenc

/-- Witness for C3 at a one-record list with a failing model. -/
theorem C3_synthesis_fallback_witness :
    generate_nikko_response "space anime"
        [[("title", Json.str "Cowboy Bebop"), ("score", Json.num 86)]]
        (Json.num 1) (fun _ => .error ()) true
      = .ok ("🔥 Top Picks:\n" ++ "1. Cowboy Bebop (86/100)") ∧
    ContainsInOrder ("🔥 Top Picks:\n" ++ "1. Cowboy Bebop (86/100)")
      (([[("title", Json.str "Cowboy Bebop"),
          ("score", Json.num 86)]] : List PyDict).map rec_title) ∧
    "🔥 Top Picks:\n" ++ "1. Cowboy Bebop (86/100)" ≠ "" :=
  (C3_synthesis_fallback "space anime" (Json.num 1) true (fun _ => .error ())
      [[("title", Json.str "Cowboy Bebop"), ("score", Json.num 86)]]
      (by simp)
      (by
        intro r hr
        simp only [List.mem_singleton] at hr
        subst hr
        exact ⟨⟨_, rfl⟩, ⟨_, rfl⟩⟩)
      (fun _ => rfl)).2
    "1. Cowboy Bebop (86/100)" (by rfl)

/-- Claim C4: the webhook handler never lets an exception out - every run
resolves to an ok envelope - and when the language model fails at both
stages and the metadata service either raises or answers non-200, the
returned envelope carries one of the fixed non-empty user-facing texts. -/
theorem C4_webhook_resilience (data : Json) (llm1 : Except Unit Json)
    (svc : Except Unit (Int × Json)) (llm2 : String → Except Unit String)
    (choice : Bool) :
    (∃ env, webhook data llm1 svc llm2 choice = .ok env) ∧
    (llm1 = .error () → (∀ p, llm2 p = .error ()) →
     (∀ st body, svc = .ok (st, body) → st ≠ 200) →
     ∀ env, webhook data llm1 svc llm2 choice = .ok env →
       env.fulfillmentText ≠ "" ∧
       env.fulfillmentText ∈ ["Try harder with that query! 💢",
         "AniList glitched! 🛠️ Try different terms",
         "System crashed...too much sass overload 💥"]) := by
  constructor
  · cases h : webhook_try data llm1 svc llm2 choice with
    | ok env => exact ⟨env, by simp [webhook, h]⟩
    | error e => exact ⟨crash_envelope, by simp [webhook, h]⟩
  · intro hllm1 hllm2 hsvc env henv
    subst hllm1
    have hparse : parse_query (.error ())
        = [("genres", Json.arr []), ("request_count", Json.num 3)] := by rfl
    have hbuild : build_anilist_query
          [("genres", Json.arr []), ("request_count", Json.num 3)]
        = .ok ⟨anilist_query_text (Json.num 3),
            [("search", Json.null), ("genre_in", Json.arr []),
             ("minEpisodes", Json.num 0),
             ("sort", Json.str "TRENDING_DESC")]⟩ := by rfl
    cases hq : get_user_query data with
    | error e =>
      have hw : webhook data (.error ()) svc llm2 choice = .ok crash_envelope := by
        simp [webhook, webhook_try, hq]
      rw [hw] at henv
      injection henv with henv2
      subst henv2
      exact ⟨by decide, by decide⟩
    | ok uq =>
      by_cases hu : uq = ""
      · have hw : webhook data (.error ()) svc llm2 choice
            = .ok invalid_envelope := by
          simp [webhook, webhook_try, hq, hu]
        rw [hw] at henv
        injection henv with henv2
        subst henv2
        exact ⟨by decide, by decide⟩
      · rcases svc with u | ⟨st, body⟩
        · have hw : webhook data (.error ()) (.error u) llm2 choice
              = .ok crash_envelope := by
            simp [webhook, webhook_try, hq, hu, hparse, dlookup, hbuild]
          rw [hw] at henv
          injection henv with henv2
          subst henv2
          exact ⟨by decide, by decide⟩
        · have hst : st ≠ 200 := hsvc st body rfl
          have hw : webhook data (.error ()) (.ok (st, body)) llm2 choice
              = .ok glitch_envelope := by
            simp [webhook, webhook_try, hq, hu, hparse, dlookup, hbuild, hst]
          rw [hw] at henv
          injection henv with henv2
          subst henv2
          exact ⟨by decide, by decide⟩

/-- Witness for C4 with an unreadable body and both collaborators down. -/
theorem C4_webhook_resilience_witness :
    crash_envelope.fulfillmentText ≠ "" ∧
    crash_envelope.fulfillmentText ∈ ["Try harder with that query! 💢",
      "AniList glitched! 🛠️ Try different terms",
      "System crashed...too much sass overload 💥"] :=
  (C4_webhook_resilience Json.null (.error ()) (.error ())
      (fun _ => .error ()) true).2
    rfl (fun _ => rfl) (fun st body h => by simp at h) crash_envelope (by rfl)

end AnimeBot
